import Mathlib

/-!
Verification of the gme-exchangerate news-analysis pipeline
(`src/app/api/news/analyze/route.ts` and `src/app/api/news/route.ts`)
against its natural-language specification.

The TypeScript routes are shallowly embedded: every outbound network
interaction (HTTP fetch, search API, OpenAI completion, `JSON.parse` of the
model reply, JS locale number formatting) is passed in as an explicit oracle
function, and the route logic itself is translated line by line into total
Lean functions.  JS strings are `String`, JS numbers that the claims touch
are `Rat`, and JS `undefined`/`null` is `Option`.
-/

namespace GmeExchange

/-! ## JavaScript string primitives -/

/-- JS `s.substring(0, n)`: the first `n` characters of `s`. -/
def strTake (s : String) (n : Nat) : String :=
  String.mk (s.data.take n)

/-- JS `s.includes(pat)`: substring containment test. -/
def strIncludes (s pat : String) : Bool :=
  decide (pat.data <:+: s.data)

/-- JS `a || b` on strings: `a` when non-empty (truthy), else `b`. -/
def jsOr (a b : String) : String :=
  if a = "" then b else a

/-- The whitespace characters JS `String.prototype.trim` strips. -/
def isJsSpace (c : Char) : Bool :=
  c = ' ' || c = '\t' || c = '\n' || c = '\r'

/-- JS `s.trim()`: strip whitespace from both ends. -/
def jsTrim (s : String) : String :=
  String.mk (((s.data.dropWhile isJsSpace).reverse.dropWhile
    isJsSpace).reverse)

/-- One pass of the global regex replace `/<[^>]*>/g` with the empty string:
each `<`, together with everything up to and including the next `>`, is
removed; a `<` with no later `>` cannot match and is kept verbatim. -/
def stripTags : List Char → List Char
  | [] => []
  | c :: rest =>
    if c = '<' then
      match h : rest.dropWhile (fun ch => ch != '>') with
      | [] => c :: rest
      | _ :: after => stripTags after
    else c :: stripTags rest
termination_by l => l.length
decreasing_by
  · have hsub : (rest.dropWhile (fun ch => ch != '>')).Sublist rest :=
      List.dropWhile_sublist _
    have hlen : (rest.dropWhile (fun ch => ch != '>')).length ≤ rest.length :=
      hsub.length_le
    rw [h] at hlen
    simp only [List.length_cons] at hlen ⊢
    omega
  · simp only [List.length_cons]
    omega

/-- `stripHtml` from both route modules: remove markup tags, decode the five
supported HTML entities, and trim surrounding whitespace. -/
def stripHtml (html : String) : String :=
  jsTrim ((((((String.mk (stripTags html.data)).replace "&quot;" "\"").replace
      "&amp;" "&").replace "&lt;" "<").replace "&gt;" ">").replace
      "&nbsp;" " ")

/-! ## Data model (`NaverNewsItem`, `CrawledNewsItem`, `ExchangeRateInfo`) -/

/-- A search-result stub (`NaverNewsItem` in the source): the spec's
`SearchResultItem`, with `link` as the canonical URL / identity key. -/
structure NaverNewsItem where
  title : String
  originallink : String
  link : String
  description : String
  pubDate : String
deriving DecidableEq

/-- Trend indicator for a rate (`'up' | 'down' | 'stable'`). -/
inductive Trend where
  | up
  | down
  | stable
deriving DecidableEq

/-- `ExchangeRateInfo`: the live reference snapshot. -/
structure ExchangeRateInfo where
  usd : Rat
  usdChange : Rat
  usdTrend : Trend
  jpy : Rat
  eur : Rat
  cny : Rat
  time : String
deriving DecidableEq

/-- The all-zero snapshot returned when the rate crawl fails. -/
def zeroRateInfo : ExchangeRateInfo :=
  { usd := 0, usdChange := 0, usdTrend := .stable,
    jpy := 0, eur := 0, cny := 0, time := "" }

/-- `CrawledNewsItem` (analyze route): the spec's `EnrichedArticle`, with
`isCrawled` as the `enriched` flag. -/
structure CrawledNewsItem where
  title : String
  description : String
  content : String
  source : String
  url : String
  publishedAt : String
  isCrawled : Bool
  thumbnail : String
deriving DecidableEq

/-! ## Content Fetcher (`crawlNaverNews`) -/

/-- The selector reads `crawlNaverNews` performs on a fetched article page:
`#dic_area`, `#newsct_article`, `.newsct_article` text, the press-logo `alt`,
the `og:article:author` meta, the `og:image` meta.  Missing nodes read as
the empty string, exactly as cheerio's `.text()` / missing `.attr()` do
after the `|| ''` defaults. -/
structure NewsDoc where
  dicArea : String
  newsctArticleId : String
  newsctArticleCls : String
  logoAlt : String
  metaAuthor : String
  ogImage : String
deriving DecidableEq

/-- Outcome of one outbound `fetch` of an article URL: a transport error
(rejected promise), or an HTTP response with a status and parsed document. -/
inductive FetchOutcome where
  | netError
  | response (status : Nat) (doc : NewsDoc)

/-- The non-null payload of the content fetcher. -/
structure CrawlResult where
  content : String
  source : String
  thumbnail : String
deriving DecidableEq

/-- `response.ok`: HTTP status in the 2xx range. -/
def httpOk (status : Nat) : Prop := 200 ≤ status ∧ status < 300

instance (status : Nat) : Decidable (httpOk status) := by
  unfold httpOk; infer_instance

/-- `crawlNaverNews` (analyze route): skip non-`news.naver.com` URLs, fetch,
return `null` on a non-ok response or transport error, otherwise extract
body / source / thumbnail through the ordered selector fallbacks.  The JS
`try`/`catch` that converts a rejected fetch into `null` is the
`.netError => none` branch; the function is total, so no error escapes. -/
def crawlNaverNews (w : String → FetchOutcome) (url : String) :
    Option CrawlResult :=
  if strIncludes url "news.naver.com" = false then
    none
  else
    match w url with
    | .netError => none
    | .response status doc =>
      if httpOk status then
        let content := jsOr doc.dicArea (jsOr doc.newsctArticleId doc.newsctArticleCls)
        let source := jsOr doc.logoAlt doc.metaAuthor
        let thumbnail := doc.ogImage
        some { content := strTake (jsTrim content) 3000,
               source := jsTrim source,
               thumbnail := jsTrim thumbnail }
      else
        none

/-! ## Batched Enrichment Orchestrator (Step 2 of `performAnalysis`) -/

/-- The body of one `crawlPromises` entry: crawl one item and build its
`CrawledNewsItem`, with `isCrawled = !!crawled?.content`. -/
def enrichOne (w : String → FetchOutcome) (news : NaverNewsItem) :
    CrawledNewsItem :=
  let crawled := crawlNaverNews w news.link
  { title := stripHtml news.title,
    description := stripHtml news.description,
    content := (crawled.map CrawlResult.content).getD "",
    source := (crawled.map CrawlResult.source).getD "",
    url := news.link,
    publishedAt := news.pubDate,
    isCrawled := match crawled with
      | some c => c.content != ""
      | none => false,
    thumbnail := (crawled.map CrawlResult.thumbnail).getD "" }

/-- The crawl loop `for (i = 0; i < n; i += batchSize)` with
`batchSize = 5`: each batch is mapped positionally (`Promise.all` keeps
input order) and appended to the accumulator before the next batch runs. -/
def enrichBatched (w : String → FetchOutcome) (items : List NaverNewsItem) :
    List CrawledNewsItem :=
  if h : items = [] then
    []
  else
    (items.take 5).map (enrichOne w) ++ enrichBatched w (items.drop 5)
termination_by items.length
decreasing_by
  have : items.length ≠ 0 := fun hz => h (List.eq_nil_of_length_eq_zero hz)
  simp only [List.length_drop]
  omega

/-! ## Deduplication (`new Map(allNews.map(item => [item.link, item]))`) -/

/-- JS `Map.prototype.set m k v`: if the key exists, its value is replaced
in place (the key keeps its original position); otherwise the pair is
appended at the end. -/
def mapSet (m : List (String × NaverNewsItem)) (k : String)
    (v : NaverNewsItem) : List (String × NaverNewsItem) :=
  if m.any (fun p => p.1 == k) then
    m.map (fun p => if p.1 == k then (p.1, v) else p)
  else
    m ++ [(k, v)]

/-- `new Map(items.map(item => [item.link, item]))`: insert every item
keyed by its link, in list order. -/
def newsMapOf (items : List NaverNewsItem) : List (String × NaverNewsItem) :=
  items.foldl (fun m item => mapSet m item.link item) []

/-- `Array.from(new Map(items.map(item => [item.link, item])).values())`:
the deduplicated news list of both routes. -/
def dedupByLink (items : List NaverNewsItem) : List NaverNewsItem :=
  (newsMapOf items).map Prod.snd

/-- The keys of a list in first-occurrence order (specification device used
to characterise `dedupByLink`'s key order). -/
def firstKeys : List String → List String
  | [] => []
  | k :: ks => k :: (firstKeys ks).filter (fun x => x != k)

/-- The last item of `items` carrying link `k` (specification device:
JS `Map` retains the most recently `set` value for a key). -/
def lastWith (items : List NaverNewsItem) (k : String) :
    Option NaverNewsItem :=
  items.reverse.find? (fun i => i.link == k)

/-! ## Aggregators of the two routes -/

/-- Aggregation in `performAnalysis` (analyze route, Step 1): flatten the
per-keyword API results, append the finance-listing results, deduplicate.
No sort is applied; this list goes straight to the crawl loop. -/
def analyzeAggregate (apiNewsResults : List (List NaverNewsItem))
    (financeNews : List NaverNewsItem) : List NaverNewsItem :=
  dedupByLink (apiNewsResults.flatten ++ financeNews)

/-- JS `uniqueNews.sort((a, b) => new Date(b.pubDate).getTime() -
new Date(a.pubDate).getTime())`, with `ts` standing for
`new Date(·).getTime()`.  JS `Array.prototype.sort` is stable and places
`a` before `b` exactly when the comparator is `≤ 0`, i.e. when
`ts b.pubDate ≤ ts a.pubDate`; `mergeSort` with that relation models it. -/
def sortByDateDesc (ts : String → Int) (items : List NaverNewsItem) :
    List NaverNewsItem :=
  items.mergeSort (fun a b => decide (ts b.pubDate ≤ ts a.pubDate))

/-- Aggregation in the `/api/news` GET route: flatten the per-keyword
results, deduplicate, then sort descending by publication date before the
crawl loop. -/
def newsRouteAggregate (ts : String → Int)
    (newsResults : List (List NaverNewsItem)) : List NaverNewsItem :=
  sortByDateDesc ts (dedupByLink newsResults.flatten)

/-! ## Report Synthesizer (`analyzeWithOpenAI`) -/

/-- One entry of the report's `sources` array. -/
structure SourceEntry where
  title : String
  source : String
  url : String
  thumbnail : String
deriving DecidableEq

/-- `sentiment.breakdown` as (possibly absent) fields of the parsed model
reply. -/
structure BreakdownJson where
  positive : Option Rat
  negative : Option Rat
  neutral : Option Rat
deriving DecidableEq

/-- `sentiment` as (possibly absent) fields of the parsed model reply. -/
structure SentimentJson where
  overall : Option String
  score : Option Rat
  description : Option String
  breakdown : Option BreakdownJson
deriving DecidableEq

/-- One `marketFactors` entry of the parsed model reply. -/
structure MarketFactorJson where
  factor : Option String
  impact : Option String
  description : Option String
deriving DecidableEq

/-- `exchangeOutlook` of the parsed model reply. -/
structure OutlookJson where
  direction : Option String
  shortTerm : Option String
  midTerm : Option String
  riskFactors : Option (List String)
deriving DecidableEq

/-- The object produced by `JSON.parse` on the model reply: a plain JS
object whose properties may each be absent (`undefined`), including a
`sources` property the model might volunteer on its own. -/
structure GenOutput where
  title : Option String
  summary : Option String
  detailedAnalysis : Option String
  keyPoints : Option (List String)
  marketFactors : Option (List MarketFactorJson)
  sentiment : Option SentimentJson
  exchangeOutlook : Option OutlookJson
  investmentTip : Option String
  sources : Option (List SourceEntry)
deriving DecidableEq

/-- `JSON.parse('\x7b\x7d')`: the empty object, every property absent. -/
def emptyGenOutput : GenOutput :=
  { title := none, summary := none, detailedAnalysis := none,
    keyPoints := none, marketFactors := none, sentiment := none,
    exchangeOutlook := none, investmentTip := none, sources := none }

/-- The value `analyzeWithOpenAI` returns (`Omit<AnalysisResult,
'currentRate'>`): the spread of the parsed reply with `sources`,
`generatedAt` and `newsCount` overwritten by the synthesizer. -/
structure AnalysisNoRate where
  title : Option String
  summary : Option String
  detailedAnalysis : Option String
  keyPoints : Option (List String)
  marketFactors : Option (List MarketFactorJson)
  sentiment : Option SentimentJson
  exchangeOutlook : Option OutlookJson
  investmentTip : Option String
  sources : List SourceEntry
  generatedAt : String
  newsCount : Nat
deriving DecidableEq

/-- `AnalysisResult`: the full report, with the reference snapshot attached
by `performAnalysis`. -/
structure AnalysisResult extends AnalysisNoRate where
  currentRate : ExchangeRateInfo
deriving DecidableEq

/-- The filter `news.filter(n => n.isCrawled && n.content)`. -/
def isEnrichedWithContent (n : CrawledNewsItem) : Bool :=
  n.isCrawled && n.content != ""

/-- `crawledNews` inside `analyzeWithOpenAI`: the enriched articles. -/
def crawledNewsOf (news : List CrawledNewsItem) : List CrawledNewsItem :=
  news.filter isEnrichedWithContent

/-- `MAX_NEWS_FOR_ANALYSIS`. -/
def MAX_NEWS_FOR_ANALYSIS : Nat := 50

/-- `MAX_CONTENT_LENGTH`. -/
def MAX_CONTENT_LENGTH : Nat := 1000

/-- `newsForAnalysis = crawledNews.slice(0, MAX_NEWS_FOR_ANALYSIS)`:
exactly the articles submitted to the generation prompt. -/
def newsForAnalysis (news : List CrawledNewsItem) : List CrawledNewsItem :=
  (crawledNewsOf news).take MAX_NEWS_FOR_ANALYSIS

/-- `newsText`: the numbered article list embedded in the prompt. -/
def newsTextOf (news : List CrawledNewsItem) : String :=
  String.intercalate "\n\n" ((newsForAnalysis news).enum.map (fun p =>
    let i := p.1
    let t := p.2.title
    let c := strTake p.2.content MAX_CONTENT_LENGTH
    s!"[뉴스 {i + 1}] {t}\n{c}"))

/-- The ternary arrow in the rate-info block
(`usdTrend === 'up' ? '▲' : usdTrend === 'down' ? '▼' : '-'`). -/
def trendArrow (t : Trend) : String :=
  match t with
  | .up => "▲"
  | .down => "▼"
  | .stable => "-"

/-- The `rateInfo` template string: rendered only when `usd > 0`, using the
JS number formatters `toLocaleString('ko-KR')` (`fmtKo`) and
`Math.abs(·).toFixed(2)` (`fmtFixed2` applied to the absolute change),
which are supplied as oracles. -/
def rateInfoStr (fmtKo fmtFixed2 : Rat → String) (r : ExchangeRateInfo) :
    String :=
  if r.usd > 0 then
    let time := r.time
    let usd := fmtKo r.usd
    let arrow := trendArrow r.usdTrend
    let change := fmtFixed2 (if r.usdChange < 0 then -r.usdChange else r.usdChange)
    let jpy := fmtKo r.jpy
    let eur := fmtKo r.eur
    let cny := fmtKo r.cny
    s!"\n[현재 실시간 환율 - {time} 기준]\n- 원/달러(USD): {usd}원 ({arrow}{change}원)\n- 원/엔(JPY 100엔): {jpy}원\n- 원/유로(EUR): {eur}원\n- 원/위안(CNY): {cny}원\n\n위 실시간 환율을 기준으로 전망을 작성해주세요. 환율 수치는 반드시 현재 환율({usd}원)을 기준으로 구체적인 범위를 제시해주세요.\n"
  else
    ""

/-- The fixed JSON-format instruction block of the prompt (the template
object the model is asked to fill in). -/
def promptJsonTemplate : String :=
  "다음 JSON 형식으로 상세하게 응답하세요:\n\x7b\n  \"title\": \"오늘의 환율 동향을 한 문장으로 요약한 제목\",\n  \"summary\": \"전체 뉴스를 종합한 핵심 요약 (4-5문장, 구체적인 수치와 함께)\",\n  \"detailedAnalysis\": \"뉴스 내용을 바탕으로 한 심층 분석 (8-10문장). 현재 환율 상황, 주요 영향 요인, 글로벌 경제 맥락, 국내 경제 상황을 종합적으로 분석\",\n  \"keyPoints\": [\n    \"핵심 포인트 1 - 구체적인 내용과 수치 포함\",\n    \"핵심 포인트 2 - 구체적인 내용과 수치 포함\",\n    \"핵심 포인트 3 - 구체적인 내용과 수치 포함\",\n    \"핵심 포인트 4 - 구체적인 내용과 수치 포함\",\n    \"핵심 포인트 5 - 구체적인 내용과 수치 포함\"\n  ],\n  \"marketFactors\": [\n    \x7b\n      \"factor\": \"영향 요인명 (예: 미국 금리 정책)\",\n      \"impact\": \"positive 또는 negative 또는 neutral\",\n      \"description\": \"해당 요인이 원/달러 환율에 미치는 영향 설명 (2-3문장)\"\n    \x7d,\n    \x7b\n      \"factor\": \"두 번째 영향 요인\",\n      \"impact\": \"positive 또는 negative 또는 neutral\",\n      \"description\": \"설명\"\n    \x7d,\n    \x7b\n      \"factor\": \"세 번째 영향 요인\",\n      \"impact\": \"positive 또는 negative 또는 neutral\",\n      \"description\": \"설명\"\n    \x7d\n  ],\n  \"sentiment\": \x7b\n    \"overall\": \"positive 또는 negative 또는 neutral\",\n    \"score\": -1.0에서 1.0 사이 숫자 (소수점 2자리),\n    \"description\": \"현재 외환시장 심리 상태에 대한 상세 설명 (3-4문장)\",\n    \"breakdown\": \x7b\n      \"positive\": 긍정적 뉴스 비율 (0-100 정수),\n      \"negative\": 부정적 뉴스 비율 (0-100 정수),\n      \"neutral\": 중립적 뉴스 비율 (0-100 정수)\n    \x7d\n  \x7d,\n  \"exchangeOutlook\": \x7b\n    \"direction\": \"up 또는 down 또는 stable 또는 uncertain\",\n    \"shortTerm\": \"향후 1주일 환율 전망 (3-4문장, 예상 범위 포함)\",\n    \"midTerm\": \"향후 1개월 환율 전망 (3-4문장)\",\n    \"riskFactors\": [\n      \"주의해야 할 리스크 요인 1\",\n      \"주의해야 할 리스크 요인 2\",\n      \"주의해야 할 리스크 요인 3\"\n    ]\n  \x7d,\n  \"investmentTip\": \"개인 투자자나 환전을 고려하는 사람들을 위한 실용적인 조언 (3-4문장)\"\n\x7d\n\n반드시 JSON 형식으로만 응답하세요."

/-- The complete prompt `analyzeWithOpenAI` submits to the model. -/
def promptOf (fmtKo fmtFixed2 : Rat → String) (currentRate : ExchangeRateInfo)
    (news : List CrawledNewsItem) : String :=
  let rateInfo := rateInfoStr fmtKo fmtFixed2 currentRate
  let k := (newsForAnalysis news).length
  let newsText := newsTextOf news
  let template := promptJsonTemplate
  s!"당신은 20년 경력의 외환시장 전문 애널리스트입니다.\n금융기관 리서치센터장 수준의 깊이 있는 분석을 제공합니다.\n{rateInfo}\n아래 {k}개의 환율 관련 뉴스를 심층 분석하고 전문가 수준의 종합 리포트를 작성하세요.\n\n[뉴스 목록]\n{newsText}\n\n{template}"

/-- One `sources` entry as the synthesizer builds it from an article. -/
def mkSource (n : CrawledNewsItem) : SourceEntry :=
  { title := n.title, source := n.source, url := n.url,
    thumbnail := n.thumbnail }

/-- `completion.choices[0].message.content || '\x7b\x7d'`: a `null` or
empty model reply is silently replaced by the empty-object literal before
parsing. -/
def effectiveContent (content : Option String) : String :=
  match content with
  | none => "\x7b\x7d"
  | some s => if s = "" then "\x7b\x7d" else s

/-- `analyzeWithOpenAI`: filter to enriched articles, slice to 50, build
the prompt, obtain the completion (`genW` oracle, prompt in), parse it
(`jsonParse` oracle standing for `JSON.parse`, which throws — `.error` —
on non-JSON input), and return the spread
`\x7b...result, sources, generatedAt, newsCount\x7d`.  A parse failure
propagates as the thrown error; nothing catches it inside this function. -/
def analyzeWithOpenAI (news : List CrawledNewsItem)
    (currentRate : ExchangeRateInfo) (genW : String → Option String)
    (jsonParse : String → Except String GenOutput)
    (fmtKo fmtFixed2 : Rat → String) (now : String) :
    Except String AnalysisNoRate :=
  let prompt := promptOf fmtKo fmtFixed2 currentRate news
  let content := genW prompt
  match jsonParse (effectiveContent content) with
  | .error e => .error e
  | .ok result =>
    .ok { title := result.title,
          summary := result.summary,
          detailedAnalysis := result.detailedAnalysis,
          keyPoints := result.keyPoints,
          marketFactors := result.marketFactors,
          sentiment := result.sentiment,
          exchangeOutlook := result.exchangeOutlook,
          investmentTip := result.investmentTip,
          sources := (newsForAnalysis news).map mkSource,
          generatedAt := now,
          newsCount := (crawledNewsOf news).length }

/-! ## The full pipeline (`performAnalysis`) with its outbound-call trace -/

/-- One outbound network call of the analyze pipeline, recorded in program
order (the `Promise.all` groups are linearised left to right). -/
inductive NetCall where
  | rateFetch
  | newsSearch (keyword : String)
  | financeList
  | articleFetch (url : String)
  | openaiCall
deriving DecidableEq

/-- The environment variables the pipeline reads. -/
structure Env where
  naverClientId : Option String
  naverClientSecret : Option String
  openaiKey : Option String

/-- JS falsiness of `process.env.X` for a string variable: unset or empty. -/
def falsyStr (o : Option String) : Bool :=
  match o with
  | none => true
  | some s => s == ""

/-- All external-world behaviour the pipeline can observe, as oracles:
the market-index page (already reduced to the snapshot it parses to, or
`none` for any fetch/parse failure), the search API per keyword (items, or
an HTTP error status), the finance listing page (extracted items, or a
failure), the per-URL article fetch, the model completion as a function of
the prompt, `JSON.parse`, and the two JS number formatters. -/
structure Worlds where
  rateW : Option ExchangeRateInfo
  searchW : String → Except Nat (List NaverNewsItem)
  financeW : Except Unit (List NaverNewsItem)
  crawlW : String → FetchOutcome
  genW : String → Option String
  jsonParse : String → Except String GenOutput
  fmtKo : Rat → String
  fmtFixed2 : Rat → String

/-- `SEARCH_KEYWORDS` of the analyze route. -/
def SEARCH_KEYWORDS : List String :=
  ["환율", "달러", "원화", "금리", "한국은행"]

/-- `ENABLE_FINANCE_NEWS_CRAWLING`. -/
def ENABLE_FINANCE_NEWS_CRAWLING : Bool := true

/-- `fetchCurrentExchangeRates`: one outbound fetch of the market-index
page; every failure is caught and becomes the all-zero snapshot.  The
cheerio row-extraction internals are abstracted into the `rateW` oracle,
which no claim depends on. -/
def fetchCurrentExchangeRates (rateW : Option ExchangeRateInfo) :
    List NetCall × ExchangeRateInfo :=
  ([.rateFetch], rateW.getD zeroRateInfo)

/-- `fetchNews` (analyze route): throw before any network call when the
Naver credentials are falsy; otherwise one search call, throwing on a
non-ok HTTP status. -/
def fetchNews (env : Env) (searchW : String → Except Nat (List NaverNewsItem))
    (query : String) : List NetCall × Except String (List NaverNewsItem) :=
  if falsyStr env.naverClientId || falsyStr env.naverClientSecret then
    ([], .error "Naver API credentials not configured")
  else
    ([.newsSearch query],
      match searchW query with
      | .error status => .error s!"Naver API error: {status}"
      | .ok items => .ok items)

/-- `Promise.all(SEARCH_KEYWORDS.map(keyword => fetchNews(keyword)))`,
linearised left to right: the first rejection wins. -/
def runSearches (env : Env)
    (searchW : String → Except Nat (List NaverNewsItem)) :
    List String → List NetCall × Except String (List (List NaverNewsItem))
  | [] => ([], .ok [])
  | q :: qs =>
    let (t, r) := fetchNews env searchW q
    match r with
    | .error e => (t, .error e)
    | .ok items =>
      let (ts, rs) := runSearches env searchW qs
      (t ++ ts,
        match rs with
        | .error e => .error e
        | .ok ls => .ok (items :: ls))

/-- `fetchNaverFinanceNews`: disabled → no call and no items; otherwise one
listing fetch whose failure is absorbed into the empty list.  The
href-rewriting extraction loop is abstracted into the `financeW` oracle. -/
def fetchNaverFinanceNews (financeW : Except Unit (List NaverNewsItem)) :
    List NetCall × List NaverNewsItem :=
  if ENABLE_FINANCE_NEWS_CRAWLING = false then
    ([], [])
  else
    ([.financeList],
      match financeW with
      | .error _ => []
      | .ok items => items)

/-- The outbound calls the crawl loop makes: one article fetch per
supported URL, in list order (`crawlNaverNews` returns before fetching on
unsupported hosts). -/
def crawlTrace (items : List NaverNewsItem) : List NetCall :=
  (items.filter (fun n => strIncludes n.link "news.naver.com")).map
    (fun n => .articleFetch n.link)

/-- The placeholder value the OpenAI key is compared against. -/
def OPENAI_PLACEHOLDER : String := "your_openai_api_key_here"

/-- `!process.env.OPENAI_API_KEY || process.env.OPENAI_API_KEY ===
'your_openai_api_key_here'`. -/
def openaiKeyMissing (env : Env) : Bool :=
  falsyStr env.openaiKey || (env.openaiKey == some OPENAI_PLACEHOLDER)

/-- `performAnalysis` (analyze route): rate crawl, parallel search plus
finance listing, merge and deduplicate, batched crawl, OpenAI key check,
model call; returns the outbound-call trace in program order together with
the result or the first thrown error. -/
def performAnalysis (env : Env) (w : Worlds) (now : String) :
    List NetCall × Except String AnalysisResult :=
  let (t0, currentRate) := fetchCurrentExchangeRates w.rateW
  let (t1, searchRes) := runSearches env w.searchW SEARCH_KEYWORDS
  let (t1f, financeNews) := fetchNaverFinanceNews w.financeW
  match searchRes with
  | .error e => (t0 ++ t1 ++ t1f, .error e)
  | .ok apiNewsResults =>
    let uniqueNews := dedupByLink (apiNewsResults.flatten ++ financeNews)
    let t2 := crawlTrace uniqueNews
    let crawledNews := enrichBatched w.crawlW uniqueNews
    if openaiKeyMissing env then
      (t0 ++ t1 ++ t1f ++ t2, .error "OpenAI API key not configured")
    else
      match analyzeWithOpenAI crawledNews currentRate w.genW w.jsonParse
          w.fmtKo w.fmtFixed2 now with
      | .error e => (t0 ++ t1 ++ t1f ++ t2 ++ [.openaiCall], .error e)
      | .ok analysis =>
        (t0 ++ t1 ++ t1f ++ t2 ++ [.openaiCall],
          .ok { toAnalysisNoRate := analysis, currentRate := currentRate })

/-! ## Result Cache and the GET handler -/

/-- The state of the tagged data cache behind `unstable_cache`: at most one
stored report with its storage time (seconds). -/
structure CacheState where
  entry : Option (AnalysisResult × Nat)
deriving DecidableEq

/-- The `revalidate` TTL of `getCachedAnalysis` (seconds). -/
def REVALIDATE_SECONDS : Nat := 600

/-- Modelled from the spec: the external `unstable_cache(performAnalysis,
[CACHE_TAG], \x7brevalidate: 600, tags: [CACHE_TAG]\x7d)` wrapper lives in
`next/cache`, not in this repository; per the spec's Result Cache section
a `get` returns the stored value while it is younger than the TTL and
otherwise recomputes (`fresh` is the value the wrapped `performAnalysis`
would produce now) and stores the result wholesale. -/
def getCachedAnalysis (fresh : AnalysisResult) (now : Nat) (s : CacheState) :
    AnalysisResult × CacheState :=
  match s.entry with
  | some (v, t) =>
    if now < t + REVALIDATE_SECONDS then (v, s)
    else (fresh, { entry := some (fresh, now) })
  | none => (fresh, { entry := some (fresh, now) })

/-- The cache-relevant core of the analyze route's `GET` handler:
`refresh=true` calls `performAnalysis()` directly — the cache is neither
read nor written on that path — while a normal request goes through
`getCachedAnalysis`. -/
def analyzeGetRoute (forceRefresh : Bool) (fresh : AnalysisResult)
    (now : Nat) (s : CacheState) : AnalysisResult × CacheState :=
  if forceRefresh then (fresh, s) else getCachedAnalysis fresh now s

/-- The JSON body the analyze route's `GET` responds with. -/
inductive AnalyzeResponse where
  | ok (data : AnalysisResult) (cached : Bool) (totalMs : Nat)
  | err (msg : String)
deriving DecidableEq

/-- The response assembly of the `GET` handler: on success, `cached` is
`false` on the forced path and otherwise `duration < 1000` — the elapsed
wall-clock milliseconds of the awaited call, supplied here as an input. -/
def analyzeGetResponse (forceRefresh : Bool)
    (outcome : Except String AnalysisResult) (duration : Nat) :
    AnalyzeResponse :=
  match outcome with
  | .error e => .err e
  | .ok analysis =>
    .ok analysis (if forceRefresh then false else decide (duration < 1000))
      duration

/-! ## Helper lemmas -/

/-- The batched crawl loop is extensionally the positional map of the
single-item crawl over the whole input. -/
theorem enrichBatched_eq_map (w : String → FetchOutcome) :
    ∀ items : List NaverNewsItem,
      enrichBatched w items = items.map (enrichOne w) := by
  intro items
  generalize hn : items.length = n
  induction n using Nat.strong_induction_on generalizing items with
  | _ n ih =>
    rw [enrichBatched]
    split
    · rename_i h
      simp [h]
    · rename_i h
      have hlt : (items.drop 5).length < n := by
        subst hn
        have hne : items.length ≠ 0 :=
          fun hz => h (List.eq_nil_of_length_eq_zero hz)
        simp only [List.length_drop]
        omega
      rw [ih _ hlt _ rfl, ← List.map_append, List.take_append_drop]

/-! ## Shared concrete sample data -/

/-- A parsed article page with a non-empty body. -/
def sampleDoc : NewsDoc :=
  { dicArea := "article body", newsctArticleId := "", newsctArticleCls := "",
    logoAlt := "연합뉴스", metaAuthor := "", ogImage := "https://img.example/1.png" }

/-- A world in which every article fetch succeeds with `sampleDoc`. -/
def sampleWorld : String → FetchOutcome :=
  fun _ => .response 200 sampleDoc

/-- A parsed article page whose three body selectors are all empty. -/
def emptyDoc : NewsDoc :=
  { dicArea := "", newsctArticleId := "", newsctArticleCls := "",
    logoAlt := "", metaAuthor := "", ogImage := "" }

/-- A world in which every fetch returns HTTP 200 but no extractable body. -/
def emptyBodyWorld : String → FetchOutcome :=
  fun _ => .response 200 emptyDoc

/-- A sample search-result item on a supported host. -/
def sampleItem : NaverNewsItem :=
  { title := "환율 급등", originallink := "https://example.com/1",
    link := "https://n.news.naver.com/mnews/article/001/0001",
    description := "설명", pubDate := "Mon, 01 Jan 2024 10:00:00 +0900" }

/-- An enriched article (crawl succeeded, non-empty body). -/
def sampleCrawled : CrawledNewsItem :=
  { title := "환율 급등", description := "설명", content := "본문",
    source := "연합뉴스", url := "https://n.news.naver.com/mnews/article/001/0001",
    publishedAt := "Mon, 01 Jan 2024 10:00:00 +0900", isCrawled := true,
    thumbnail := "https://img.example/1.png" }

/-- A report skeleton used as a concrete cache value, varying only in
`generatedAt`. -/
def sampleReport (g : String) : AnalysisResult :=
  { title := none, summary := none, detailedAnalysis := none,
    keyPoints := none, marketFactors := none, sentiment := none,
    exchangeOutlook := none, investmentTip := none, sources := [],
    generatedAt := g, newsCount := 0, currentRate := zeroRateInfo }

/-- A formatting oracle (its output never matters for any theorem). -/
def fmtEmpty : Rat → String := fun _ => ""

/-- A completion oracle that always replies with the empty-object literal. -/
def emptyObjGen : String → Option String := fun _ => some "\x7b\x7d"

/-- A completion oracle that always replies with the empty string —
a reply `JSON.parse` itself could never accept. -/
def emptyStringGen : String → Option String := fun _ => some ""

/-- A completion oracle that always replies with non-JSON text. -/
def badGen : String → Option String := fun _ => some "not json"

/-- A `JSON.parse` oracle agreeing with the real `JSON.parse` on the inputs
the counterexamples exercise: the empty-object literal parses to the empty
object, anything else throws a syntax error. -/
def strictParse : String → Except String GenOutput :=
  fun t => if t = "\x7b\x7d" then .ok emptyGenOutput else .error "SyntaxError"

/-- A `JSON.parse` oracle that accepts everything as the empty object. -/
def okParse : String → Except String GenOutput :=
  fun _ => .ok emptyGenOutput

/-! ## C4 — batch completeness -/

/-- C4: for every input list and the batch size 5 used by the code, the
batched enrichment produces exactly one output per input item, in input
order (it equals the positional map of single-item enrichment), and each
item's `isCrawled` flag is set exactly when its fetch returned a non-null
result with non-empty text.  No item is dropped however many fetches
fail. -/
theorem c4_batch_completeness (w : String → FetchOutcome)
    (items : List NaverNewsItem) :
    enrichBatched w items = items.map (enrichOne w) ∧
    (enrichBatched w items).length = items.length ∧
    ∀ n ∈ items, ((enrichOne w n).isCrawled = true ↔
      ∃ c, crawlNaverNews w n.link = some c ∧ c.content ≠ "") := by
  refine ⟨enrichBatched_eq_map w items, ?_, ?_⟩
  · rw [enrichBatched_eq_map w items, List.length_map]
  · intro n _
    unfold enrichOne
    cases hc : crawlNaverNews w n.link with
    | none => simp [hc]
    | some c => simp [hc, bne_iff_ne]

/-- Witness for C4 at a concrete item whose fetch succeeds. -/
theorem c4_batch_completeness_witness :
    (enrichOne sampleWorld sampleItem).isCrawled = true ↔
      ∃ c, crawlNaverNews sampleWorld sampleItem.link = some c ∧
        c.content ≠ "" :=
  (c4_batch_completeness sampleWorld [sampleItem]).2.2 sampleItem
    (List.mem_singleton.mpr rfl)

/-! ## C5 — content fetcher null contract (corrected) -/

/-- C5 (amended): the fetcher returns `null` for unsupported hosts, for
transport errors and for non-2xx responses, and it is a total function (the
`try`/`catch` converts every failure to `null`, so nothing propagates); but
on a successful response it always returns a non-null result — a parse that
yields no extractable body produces `some` with empty `content`, not
`null`. -/
theorem c5_fetcher_null_contract (w : String → FetchOutcome) (url : String) :
    (strIncludes url "news.naver.com" = false → crawlNaverNews w url = none) ∧
    (w url = .netError → crawlNaverNews w url = none) ∧
    (∀ status doc, w url = .response status doc → ¬ httpOk status →
      crawlNaverNews w url = none) ∧
    (∀ status doc, w url = .response status doc → httpOk status →
      strIncludes url "news.naver.com" = true →
      crawlNaverNews w url = some
        { content := strTake (jsTrim (jsOr doc.dicArea
            (jsOr doc.newsctArticleId doc.newsctArticleCls))) 3000,
          source := jsTrim (jsOr doc.logoAlt doc.metaAuthor),
          thumbnail := jsTrim doc.ogImage }) := by
  unfold crawlNaverNews
  refine ⟨fun h => by simp [h], ?_, ?_, ?_⟩
  · intro h
    rw [h]
    split <;> rfl
  · intro status doc h hnot
    rw [h]
    split
    · rfl
    · simp [hnot]
  · intro status doc h hok hsup
    rw [h]
    simp [hsup, hok]

/-- Witness for C5 at a concrete successful fetch. -/
theorem c5_fetcher_null_contract_witness :
    crawlNaverNews sampleWorld "https://n.news.naver.com/mnews/article/001/0001" =
      some { content := strTake (jsTrim (jsOr sampleDoc.dicArea
              (jsOr sampleDoc.newsctArticleId sampleDoc.newsctArticleCls))) 3000,
             source := jsTrim (jsOr sampleDoc.logoAlt sampleDoc.metaAuthor),
             thumbnail := jsTrim sampleDoc.ogImage } :=
  (c5_fetcher_null_contract sampleWorld
      "https://n.news.naver.com/mnews/article/001/0001").2.2.2 200 sampleDoc
    rfl (by decide) (by decide)

/-- Counterexample to C5 as stated: a 200 response whose page yields no
extractable body makes the fetcher return a non-null result with empty
`content` — the claim demands `null` in that case. -/
theorem c5_counterexample :
    crawlNaverNews emptyBodyWorld
        "https://n.news.naver.com/mnews/article/001/0001" ≠ none ∧
    crawlNaverNews emptyBodyWorld
        "https://n.news.naver.com/mnews/article/001/0001" =
      some { content := "", source := "", thumbnail := "" } := by
  have heq : crawlNaverNews emptyBodyWorld
      "https://n.news.naver.com/mnews/article/001/0001" =
      some { content := "", source := "", thumbnail := "" } := rfl
  exact ⟨heq ▸ Option.some_ne_none _, heq⟩

/-! ## C10 — the `cached` response flag -/

/-- C10: on a successful forced-refresh request the response's `cached`
field is `false`, and on a non-forced request it equals the timing
heuristic `duration < 1000` — it is a function of the elapsed duration
only, not of any cache-hit fact (which is not even an input to the
response assembly). -/
theorem c10_cached_flag (outcome : Except String AnalysisResult)
    (duration : Nat) :
    (∀ a c t, analyzeGetResponse true outcome duration = .ok a c t →
      c = false) ∧
    (∀ a c t, analyzeGetResponse false outcome duration = .ok a c t →
      c = decide (duration < 1000)) := by
  unfold analyzeGetResponse
  cases outcome with
  | error e =>
    refine ⟨fun a c t h => ?_, fun a c t h => ?_⟩ <;> cases h
  | ok analysis =>
    constructor <;> intro a c t h <;>
      simpa using (AnalyzeResponse.ok.inj h).2.1.symm

/-- Witness for C10: a 5 ms non-forced response reports `cached = true`. -/
theorem c10_cached_flag_witness :
    (true : Bool) = decide (5 < 1000) :=
  (c10_cached_flag (.ok (sampleReport "2024-01-01T00:00:00Z")) 5).2
    (sampleReport "2024-01-01T00:00:00Z") true 5 rfl

/-! ## C8 — forced refresh and the cache (corrected) -/

/-- C8 (amended): a forced refresh recomputes the full pipeline and returns
the fresh value, but it bypasses the cache entirely — the cache state is
left unchanged, nothing is replaced — so a subsequent non-forced get within
the TTL window still returns the previously cached value, not the value the
forced refresh produced. -/
theorem c8_force_refresh_semantics (fresh : AnalysisResult) (now : Nat)
    (s : CacheState) :
    analyzeGetRoute true fresh now s = (fresh, s) ∧
    (∀ v t fresh2 now2, s.entry = some (v, t) →
      now2 < t + REVALIDATE_SECONDS →
      (analyzeGetRoute false fresh2 now2 s).1 = v) := by
  refine ⟨rfl, ?_⟩
  intro v t fresh2 now2 hs hlt
  simp [analyzeGetRoute, getCachedAnalysis, hs, hlt]

/-- Witness for C8 at a concrete cache state within the TTL. -/
theorem c8_force_refresh_semantics_witness :
    (analyzeGetRoute false (sampleReport "new") 10
        { entry := some (sampleReport "old", 0) }).1 = sampleReport "old" :=
  (c8_force_refresh_semantics (sampleReport "x") 0
      { entry := some (sampleReport "old", 0) }).2
    (sampleReport "old") 0 (sampleReport "new") 10 rfl (by decide)

/-- Counterexample to C8 as stated: starting from a cache holding the old
report, a forced refresh produces the new report, yet a non-forced get
10 seconds later (well within the 600 s TTL) returns the old report — the
forced refresh did not replace the cached value. -/
theorem c8_counterexample :
    (analyzeGetRoute true (sampleReport "new") 5
        { entry := some (sampleReport "old", 0) }).1 = sampleReport "new" ∧
    (analyzeGetRoute false (sampleReport "third") 10
        (analyzeGetRoute true (sampleReport "new") 5
          { entry := some (sampleReport "old", 0) }).2).1 =
      sampleReport "old" ∧
    sampleReport "old" ≠ sampleReport "new" := by
  refine ⟨rfl, rfl, ?_⟩
  decide

/-! ## C1 — sources fidelity -/

/-- C1: whenever the synthesizer returns a report, its `sources` array is
built from exactly the filtered-and-sliced enriched articles that were
submitted to the generation prompt (`newsForAnalysis`), never from the
model's output, and every entry corresponds to an article with
`isCrawled = true` and non-empty text that is in that prompt slice. -/
theorem c1_sources_fidelity (news : List CrawledNewsItem)
    (currentRate : ExchangeRateInfo) (genW : String → Option String)
    (jsonParse : String → Except String GenOutput)
    (fmtKo fmtFixed2 : Rat → String) (now : String) (r : AnalysisNoRate)
    (h : analyzeWithOpenAI news currentRate genW jsonParse fmtKo fmtFixed2
      now = .ok r) :
    r.sources = (newsForAnalysis news).map mkSource ∧
    ∀ s ∈ r.sources, ∃ n, n ∈ newsForAnalysis news ∧ n.isCrawled = true ∧
      n.content ≠ "" ∧ s = mkSource n := by
  simp only [analyzeWithOpenAI] at h
  cases hp : jsonParse (effectiveContent
      (genW (promptOf fmtKo fmtFixed2 currentRate news))) with
  | error e =>
    rw [hp] at h
    cases h
  | ok g =>
    rw [hp] at h
    have hr := Except.ok.inj h
    subst hr
    refine ⟨rfl, ?_⟩
    intro s hs
    obtain ⟨n, hn, hfn⟩ := List.mem_map.mp hs
    refine ⟨n, hn, ?_, ?_, hfn.symm⟩
    · have hn' : n ∈ crawledNewsOf news := by
        unfold newsForAnalysis at hn
        exact List.mem_of_mem_take hn
      have hflt := (List.mem_filter.mp hn').2
      unfold isEnrichedWithContent at hflt
      rw [Bool.and_eq_true] at hflt
      exact hflt.1
    · have hn' : n ∈ crawledNewsOf news := by
        unfold newsForAnalysis at hn
        exact List.mem_of_mem_take hn
      have hflt := (List.mem_filter.mp hn').2
      unfold isEnrichedWithContent at hflt
      rw [Bool.and_eq_true] at hflt
      exact bne_iff_ne.mp hflt.2

/-- Witness for C1 at a concrete enriched article and a parsing model
reply. -/
theorem c1_sources_fidelity_witness :
    ({ title := none, summary := none, detailedAnalysis := none,
       keyPoints := none, marketFactors := none, sentiment := none,
       exchangeOutlook := none, investmentTip := none,
       sources := [mkSource sampleCrawled], generatedAt := "T",
       newsCount := 1 } : AnalysisNoRate).sources =
      (newsForAnalysis [sampleCrawled]).map mkSource :=
  (c1_sources_fidelity [sampleCrawled] zeroRateInfo emptyObjGen okParse
    fmtEmpty fmtEmpty "T" _ rfl).1

/-! ## C6 — malformed generator output (corrected) -/

/-- C6 (amended): when the generative capability returns a *non-empty*
reply that `JSON.parse` rejects, the thrown parse error propagates out of
the synthesizer and no report of any kind is returned; however a `null` or
empty reply (itself non-JSON) is silently replaced by the `'\x7b\x7d'`
fallback before parsing, producing a fully defaulted report rather than a
generation error. -/
theorem c6_generation_error (news : List CrawledNewsItem)
    (currentRate : ExchangeRateInfo) (genW : String → Option String)
    (jsonParse : String → Except String GenOutput)
    (fmtKo fmtFixed2 : Rat → String) (now : String) (s e : String)
    (hc : genW (promptOf fmtKo fmtFixed2 currentRate news) = some s)
    (hs : s ≠ "") (hp : jsonParse s = .error e) :
    analyzeWithOpenAI news currentRate genW jsonParse fmtKo fmtFixed2 now =
      .error e := by
  simp only [analyzeWithOpenAI]
  rw [hc]
  unfold effectiveContent
  simp only [hs, if_false]
  rw [hp]

/-- Witness for C6: a non-JSON reply makes the synthesizer fail with the
parser's error. -/
theorem c6_generation_error_witness :
    analyzeWithOpenAI [] zeroRateInfo badGen strictParse fmtEmpty fmtEmpty
      "T" = .error "SyntaxError" :=
  c6_generation_error [] zeroRateInfo badGen strictParse fmtEmpty fmtEmpty
    "T" "not json" "SyntaxError" rfl (by decide) rfl

/-- Counterexample to C6 as stated: an empty model reply is malformed
(plain `JSON.parse` rejects the empty string), yet the synthesizer returns
a fully defaulted report instead of failing, because of the `|| '\x7b\x7d'`
fallback. -/
theorem c6_counterexample :
    analyzeWithOpenAI [] zeroRateInfo emptyStringGen strictParse fmtEmpty
      fmtEmpty "T" =
      .ok { title := none, summary := none, detailedAnalysis := none,
            keyPoints := none, marketFactors := none, sentiment := none,
            exchangeOutlook := none, investmentTip := none, sources := [],
            generatedAt := "T", newsCount := 0 } := by
  rfl

/-! ## C7 — sentiment score pass-through (corrected) -/

/-- C7 (amended): the synthesizer performs no clamping at all — the whole
`sentiment` object of the parsed model reply, its `score` included, is
passed through to the report exactly as provided, just like the breakdown
percentages. -/
theorem c7_sentiment_passthrough (news : List CrawledNewsItem)
    (currentRate : ExchangeRateInfo) (genW : String → Option String)
    (jsonParse : String → Except String GenOutput)
    (fmtKo fmtFixed2 : Rat → String) (now : String) (g : GenOutput)
    (r : AnalysisNoRate)
    (hp : jsonParse (effectiveContent
      (genW (promptOf fmtKo fmtFixed2 currentRate news))) = .ok g)
    (h : analyzeWithOpenAI news currentRate genW jsonParse fmtKo fmtFixed2
      now = .ok r) :
    r.sentiment = g.sentiment := by
  simp only [analyzeWithOpenAI] at h
  rw [hp] at h
  have hr := Except.ok.inj h
  subst hr
  rfl

/-- The sentiment object of a model reply with an out-of-range score. -/
def score2Sentiment : SentimentJson :=
  { overall := some "negative", score := some 2, description := none,
    breakdown := some { positive := some 50, negative := some 30,
                        neutral := some 20 } }

/-- A parsed model reply carrying `score2Sentiment`. -/
def score2Gen : GenOutput :=
  { emptyGenOutput with sentiment := some score2Sentiment }

/-- A `JSON.parse` oracle producing `score2Gen` for every input. -/
def score2Parse : String → Except String GenOutput :=
  fun _ => .ok score2Gen

/-- The report the synthesizer builds from `score2Gen` and no articles. -/
def score2Report : AnalysisNoRate :=
  { title := none, summary := none, detailedAnalysis := none,
    keyPoints := none, marketFactors := none,
    sentiment := some score2Sentiment, exchangeOutlook := none,
    investmentTip := none, sources := [], generatedAt := "T",
    newsCount := 0 }

/-- Witness for C7 at a concrete reply. -/
theorem c7_sentiment_passthrough_witness :
    score2Report.sentiment = score2Gen.sentiment :=
  c7_sentiment_passthrough [] zeroRateInfo badGen score2Parse fmtEmpty
    fmtEmpty "T" score2Gen score2Report rfl rfl

/-- Counterexample to C7 as stated: a generator score of `2` reaches the
produced report unchanged, and `2` lies outside `[-1, 1]` — no clamping is
performed. -/
theorem c7_counterexample :
    analyzeWithOpenAI [] zeroRateInfo badGen score2Parse fmtEmpty fmtEmpty
      "T" = .ok score2Report ∧
    score2Report.sentiment = some score2Sentiment ∧
    score2Sentiment.score = some 2 ∧
    ¬ ((-1 : Rat) ≤ 2 ∧ (2 : Rat) ≤ 1) :=
  ⟨rfl, rfl, rfl, by decide⟩

/-! ## C2 — deduplication (corrected): JS `Map` keeps the *last* value -/

/-- Membership in `firstKeys` is membership in the original list. -/
theorem mem_firstKeys (k : String) :
    ∀ l : List String, k ∈ firstKeys l ↔ k ∈ l := by
  intro l
  induction l with
  | nil => simp [firstKeys]
  | cons a l ih =>
    by_cases hka : k = a
    · subst hka
      simp [firstKeys]
    · simp [firstKeys, List.mem_filter, ih, hka, bne_iff_ne]

/-- `firstKeys` never repeats a key. -/
theorem nodup_firstKeys : ∀ l : List String, (firstKeys l).Nodup := by
  intro l
  induction l with
  | nil => simp [firstKeys]
  | cons a l ih =>
    simp only [firstKeys, List.nodup_cons]
    refine ⟨?_, ih.filter _⟩
    intro hmem
    have hcond := (List.mem_filter.mp hmem).2
    simp at hcond

/-- Appending one key to the input either leaves `firstKeys` unchanged
(key already seen) or appends it at the end. -/
theorem firstKeys_append_singleton (l : List String) (k : String) :
    firstKeys (l ++ [k]) =
      if k ∈ l then firstKeys l else firstKeys l ++ [k] := by
  induction l with
  | nil => simp [firstKeys]
  | cons a l ih =>
    have hstep : firstKeys ((a :: l) ++ [k]) =
        a :: (firstKeys (l ++ [k])).filter (fun x => x != a) := rfl
    rw [hstep, ih]
    by_cases hk : k ∈ l
    · rw [if_pos hk, if_pos (List.mem_cons.mpr (Or.inr hk))]
      rfl
    · by_cases hka : k = a
      · subst hka
        rw [if_neg hk, if_pos (List.mem_cons.mpr (Or.inl rfl)),
          List.filter_append]
        have h1 : [k].filter (fun x => x != k) = [] := by simp
        rw [h1, List.append_nil]
        rfl
      · have hkcons : k ∉ a :: l := by
          simp [hka, hk]
        rw [if_neg hk, if_neg hkcons, List.filter_append]
        have h1 : [k].filter (fun x => x != a) = [k] := by
          simp [bne_iff_ne, hka]
        rw [h1]
        rfl

/-- `lastWith` over a snoc: the appended item wins when its link matches. -/
theorem lastWith_append_singleton (items : List NaverNewsItem)
    (i : NaverNewsItem) (k : String) :
    lastWith (items ++ [i]) k =
      if i.link = k then some i else lastWith items k := by
  unfold lastWith
  rw [List.reverse_append]
  by_cases h : i.link = k
  · simp [List.find?_cons_of_pos, h]
  · have hb : (i.link == k) = false := by
      simp [h]
    simp [List.find?, hb, h]

/-- The fold invariant tying the JS `Map` accumulator to its
specification: keys are the input links in first-occurrence order, and
every stored pair holds the *last* input item with that link. -/
def MapInv (items : List NaverNewsItem)
    (m : List (String × NaverNewsItem)) : Prop :=
  m.map Prod.fst = firstKeys (items.map NaverNewsItem.link) ∧
  ∀ p ∈ m, p.2.link = p.1 ∧ lastWith items p.1 = some p.2

/-- Replacement keeps the key column of the accumulator unchanged. -/
theorem mapSet_keys_replace (m : List (String × NaverNewsItem))
    (k : String) (v : NaverNewsItem) :
    (m.map (fun p => if p.1 == k then (p.1, v) else p)).map Prod.fst =
      m.map Prod.fst := by
  rw [List.map_map]
  apply List.map_congr_left
  intro p _
  simp only [Function.comp]
  split <;> rfl

/-- Key presence in the accumulator, read off the `any` test `set` uses. -/
theorem mapSet_any_iff (m : List (String × NaverNewsItem)) (k : String) :
    m.any (fun p => p.1 == k) = true ↔ k ∈ m.map Prod.fst := by
  rw [List.any_eq_true]
  constructor
  · rintro ⟨p, hp, hk⟩
    exact List.mem_map.mpr ⟨p, hp, (beq_iff_eq.mp hk)⟩
  · intro hk
    obtain ⟨p, hp, hpk⟩ := List.mem_map.mp hk
    exact ⟨p, hp, beq_iff_eq.mpr hpk⟩

/-- The `Map`-building fold satisfies the invariant. -/
theorem newsMapOf_inv : ∀ items, MapInv items (newsMapOf items) := by
  intro items
  induction items using List.reverseRecOn with
  | nil =>
    exact ⟨rfl, fun p hp => absurd hp (List.not_mem_nil p)⟩
  | append_singleton items i ih =>
    obtain ⟨hkeys, hvals⟩ := ih
    have hfold : newsMapOf (items ++ [i]) =
        mapSet (newsMapOf items) i.link i := by
      unfold newsMapOf
      rw [List.foldl_append]
      rfl
    have hlinks : (items ++ [i]).map NaverNewsItem.link =
        items.map NaverNewsItem.link ++ [i.link] := by
      simp
    by_cases hin : i.link ∈ (newsMapOf items).map Prod.fst
    · -- replacement branch
      have hany : (newsMapOf items).any (fun p => p.1 == i.link) = true :=
        (mapSet_any_iff _ _).mpr hin
      have hset : newsMapOf (items ++ [i]) =
          (newsMapOf items).map
            (fun p => if p.1 == i.link then (p.1, i) else p) := by
        rw [hfold]
        unfold mapSet
        rw [if_pos hany]
      have hinlist : i.link ∈ items.map NaverNewsItem.link := by
        have := hin
        rw [hkeys, mem_firstKeys] at this
        exact this
      constructor
      · rw [hset, mapSet_keys_replace, hkeys, hlinks,
          firstKeys_append_singleton, if_pos hinlist]
      · intro p hp
        rw [hset] at hp
        obtain ⟨q, hq, hpq⟩ := List.mem_map.mp hp
        obtain ⟨hqlink, hqlast⟩ := hvals q hq
        by_cases hqk : (q.1 == i.link) = true
        · rw [if_pos hqk] at hpq
          have hq1 : q.1 = i.link := beq_iff_eq.mp hqk
          subst hpq
          refine ⟨by rw [hq1], ?_⟩
          rw [lastWith_append_singleton, hq1, if_pos rfl]
        · rw [if_neg hqk] at hpq
          subst hpq
          have hne : i.link ≠ q.1 := by
            intro hlk
            exact hqk (beq_iff_eq.mpr hlk.symm)
          refine ⟨hqlink, ?_⟩
          rw [lastWith_append_singleton, if_neg hne]
          exact hqlast
    · -- append branch
      have hany : (newsMapOf items).any (fun p => p.1 == i.link) = false := by
        rw [← Bool.not_eq_true]
        intro hc
        exact hin ((mapSet_any_iff _ _).mp hc)
      have hset : newsMapOf (items ++ [i]) =
          newsMapOf items ++ [(i.link, i)] := by
        rw [hfold]
        unfold mapSet
        rw [hany]
        simp
      have hninlist : i.link ∉ items.map NaverNewsItem.link := by
        intro hc
        rw [hkeys, mem_firstKeys] at hin
        exact hin hc
      constructor
      · rw [hset, List.map_append, hkeys, hlinks,
          firstKeys_append_singleton, if_neg hninlist]
        rfl
      · intro p hp
        rw [hset] at hp
        rcases List.mem_append.mp hp with hpm | hplast
        · obtain ⟨hqlink, hqlast⟩ := hvals p hpm
          have hne : i.link ≠ p.1 := by
            intro hlk
            exact hin (hlk ▸ List.mem_map.mpr ⟨p, hpm, rfl⟩)
          refine ⟨hqlink, ?_⟩
          rw [lastWith_append_singleton, if_neg hne]
          exact hqlast
        · have hpv : p = (i.link, i) := by
            simpa using hplast
          subst hpv
          refine ⟨rfl, ?_⟩
          rw [lastWith_append_singleton, if_pos rfl]

/-- C2 (amended): the merged output contains each canonical URL exactly
once, in order of the URL's *first* occurrence; but for a duplicated URL
the retained title/snippet/date are those of the *last* occurrence in
iteration order, because JS `Map.set` replaces the stored value of an
existing key (the claim's "first occurrence" is what fails). -/
theorem c2_dedup_last_wins (items : List NaverNewsItem) :
    ((dedupByLink items).map NaverNewsItem.link).Nodup ∧
    (dedupByLink items).map NaverNewsItem.link =
      firstKeys (items.map NaverNewsItem.link) ∧
    (∀ u, u ∈ (dedupByLink items).map NaverNewsItem.link ↔
      u ∈ items.map NaverNewsItem.link) ∧
    (∀ v ∈ dedupByLink items, lastWith items v.link = some v) := by
  obtain ⟨hkeys, hvals⟩ := newsMapOf_inv items
  have hmap : (dedupByLink items).map NaverNewsItem.link =
      (newsMapOf items).map Prod.fst := by
    unfold dedupByLink
    rw [List.map_map]
    apply List.map_congr_left
    intro p hp
    exact (hvals p hp).1
  refine ⟨?_, ?_, ?_, ?_⟩
  · rw [hmap, hkeys]
    exact nodup_firstKeys _
  · rw [hmap, hkeys]
  · intro u
    rw [hmap, hkeys, mem_firstKeys]
  · intro v hv
    obtain ⟨p, hp, hpv⟩ := List.mem_map.mp hv
    obtain ⟨hlink, hlast⟩ := hvals p hp
    subst hpv
    rw [hlink]
    exact hlast

/-- First of two items sharing one canonical link. -/
def dupItemA : NaverNewsItem :=
  { title := "Title A", originallink := "https://example.com/a",
    link := "https://n.news.naver.com/mnews/article/001/0001",
    description := "summary A", pubDate := "Mon, 01 Jan 2024 10:00:00 +0900" }

/-- Second of two items sharing one canonical link. -/
def dupItemB : NaverNewsItem :=
  { title := "Title B", originallink := "https://example.com/b",
    link := "https://n.news.naver.com/mnews/article/001/0001",
    description := "summary B", pubDate := "Mon, 01 Jan 2024 11:00:00 +0900" }

/-- Counterexample to C2 as stated: with two entries for the same canonical
URL, the merged output keeps the entry's title/snippet/date from the
*second* (last) occurrence, not the first. -/
theorem c2_counterexample :
    dedupByLink [dupItemA, dupItemB] = [dupItemB] ∧
    dupItemB.title ≠ dupItemA.title := by
  refine ⟨rfl, ?_⟩
  decide

/-- Witness for C2 at the concrete duplicate pair: the retained entry is
the last occurrence. -/
theorem c2_dedup_last_wins_witness :
    lastWith [dupItemA, dupItemB] dupItemB.link = some dupItemB :=
  (c2_dedup_last_wins [dupItemA, dupItemB]).2.2.2 dupItemB (by decide)

/-! ## C3 — sort before enrichment (corrected) -/

/-- C3 (amended): the `/api/news` GET route does sort its deduplicated
aggregate non-increasingly by publication timestamp before the crawl
phase, but the analyze route's `performAnalysis` hands the merged,
deduplicated list to enrichment *without any sort* — enrichment order is
dedup order there. -/
theorem c3_sort_only_in_news_route :
    (∀ (ts : String → Int) (newsResults : List (List NaverNewsItem)),
      List.Pairwise (fun a b => ts b.pubDate ≤ ts a.pubDate)
        (newsRouteAggregate ts newsResults)) ∧
    (∀ (apiNewsResults : List (List NaverNewsItem))
       (financeNews : List NaverNewsItem),
      analyzeAggregate apiNewsResults financeNews =
        dedupByLink (apiNewsResults.flatten ++ financeNews)) := by
  constructor
  · intro ts newsResults
    unfold newsRouteAggregate sortByDateDesc
    have htrans : ∀ a b c : NaverNewsItem,
        decide (ts b.pubDate ≤ ts a.pubDate) = true →
        decide (ts c.pubDate ≤ ts b.pubDate) = true →
        decide (ts c.pubDate ≤ ts a.pubDate) = true := by
      intro a b c hab hbc
      exact decide_eq_true_eq.mpr
        (le_trans (decide_eq_true_eq.mp hbc) (decide_eq_true_eq.mp hab))
    have htotal : ∀ a b : NaverNewsItem,
        (decide (ts b.pubDate ≤ ts a.pubDate) ||
         decide (ts a.pubDate ≤ ts b.pubDate)) = true := by
      intro a b
      rcases le_total (ts b.pubDate) (ts a.pubDate) with h | h
      · simp [h]
      · simp [h]
    have hs := List.sorted_mergeSort htrans htotal
      (dedupByLink newsResults.flatten)
    exact hs.imp (fun hab => decide_eq_true_eq.mp hab)
  · intro apiNewsResults financeNews
    rfl

/-- Timestamp oracle for the counterexample (string length as epoch). -/
def tsLen : String → Int := fun s => (s.length : Int)

/-- An item with the smaller timestamp under `tsLen`. -/
def earlyItem : NaverNewsItem :=
  { title := "Early", originallink := "https://example.com/e",
    link := "https://n.news.naver.com/mnews/article/001/0002",
    description := "", pubDate := "1" }

/-- An item with the larger timestamp under `tsLen`. -/
def lateItem : NaverNewsItem :=
  { title := "Late", originallink := "https://example.com/l",
    link := "https://n.news.naver.com/mnews/article/001/0003",
    description := "", pubDate := "22" }

/-- Counterexample to C3 as stated: the analyze route's aggregate (the list
handed to enrichment) is not sorted non-increasingly by timestamp — an
older primary-search item stays ahead of a newer finance-listing item. -/
theorem c3_counterexample :
    ¬ List.Pairwise (fun a b => tsLen b.pubDate ≤ tsLen a.pubDate)
        (analyzeAggregate [[earlyItem]] [lateItem]) := by
  intro h
  have heq : analyzeAggregate [[earlyItem]] [lateItem] =
      [earlyItem, lateItem] := rfl
  rw [heq] at h
  have := (List.pairwise_cons.mp h).1 lateItem (by simp)
  revert this
  decide

/-! ## C9 — missing generation credential (corrected) -/

/-- Every call `fetchNews` records is the search for its own keyword. -/
theorem fetchNews_calls (env : Env)
    (sw : String → Except Nat (List NaverNewsItem)) (q : String)
    (c : NetCall) (hc : c ∈ (fetchNews env sw q).1) :
    c = .newsSearch q := by
  unfold fetchNews at hc
  split at hc
  · cases hc
  · simpa using hc

/-- Every call the search group records is a keyword search. -/
theorem runSearches_calls (env : Env)
    (sw : String → Except Nat (List NaverNewsItem)) :
    ∀ (qs : List String) (c : NetCall), c ∈ (runSearches env sw qs).1 →
      ∃ q, c = .newsSearch q := by
  intro qs
  induction qs with
  | nil =>
    intro c hc
    cases hc
  | cons q qs ih =>
    intro c hc
    rw [runSearches] at hc
    rcases hfn : fetchNews env sw q with ⟨t, r⟩
    rw [hfn] at hc
    have ht : ∀ c ∈ t, c = NetCall.newsSearch q := by
      intro c hct
      exact fetchNews_calls env sw q c (by rw [hfn]; exact hct)
    cases r with
    | error e =>
      exact ⟨q, ht c hc⟩
    | ok items =>
      rcases hrs : runSearches env sw qs with ⟨ts, rs⟩
      rw [hrs] at hc
      cases rs with
      | error e =>
        rcases List.mem_append.mp hc with h1 | h2
        · exact ⟨q, ht c h1⟩
        · exact ih c (by rw [hrs]; exact h2)
      | ok ls =>
        rcases List.mem_append.mp hc with h1 | h2
        · exact ⟨q, ht c h1⟩
        · exact ih c (by rw [hrs]; exact h2)

/-- With valid credentials and every keyword search succeeding, the search
group records exactly one search per keyword and returns `ok`. -/
theorem runSearches_ok (env : Env)
    (sw : String → Except Nat (List NaverNewsItem))
    (hid : falsyStr env.naverClientId = false)
    (hsec : falsyStr env.naverClientSecret = false)
    (hall : ∀ q, ∃ items, sw q = .ok items) :
    ∀ qs : List String, ∃ ls,
      runSearches env sw qs = (qs.map NetCall.newsSearch, .ok ls) := by
  intro qs
  induction qs with
  | nil => exact ⟨[], rfl⟩
  | cons q qs ih =>
    obtain ⟨items, hitems⟩ := hall q
    obtain ⟨ls, hls⟩ := ih
    refine ⟨items :: ls, ?_⟩
    rw [runSearches]
    have hfn : fetchNews env sw q = ([.newsSearch q], .ok items) := by
      unfold fetchNews
      rw [hid, hsec]
      simp [hitems]
    rw [hfn, hls]
    rfl

/-- The trace component of the finance-listing fetch. -/
theorem fetchNaverFinanceNews_trace
    (financeW : Except Unit (List NaverNewsItem)) :
    (fetchNaverFinanceNews financeW).1 = [.financeList] := by
  unfold fetchNaverFinanceNews ENABLE_FINANCE_NEWS_CRAWLING
  simp

/-- Every call the crawl loop records is an article fetch. -/
theorem crawlTrace_calls (items : List NaverNewsItem) (c : NetCall)
    (hc : c ∈ crawlTrace items) : ∃ u, c = .articleFetch u := by
  unfold crawlTrace at hc
  obtain ⟨n, _, hn⟩ := List.mem_map.mp hc
  exact ⟨n.link, hn.symm⟩

/-- C9 (amended): when the generation credential is absent or the
placeholder, the pipeline never calls the generation capability, and —
provided the search credentials are present and every keyword search
succeeds — it fails with the `OpenAI API key not configured` configuration
error; this failure happens only *after* the rate fetch, the keyword
searches, the finance listing and the article crawls, not before any
outbound network call as the claim states. -/
theorem c9_config_error_late (env : Env) (w : Worlds) (now : String)
    (hkey : openaiKeyMissing env = true) :
    NetCall.openaiCall ∉ (performAnalysis env w now).1 ∧
    (falsyStr env.naverClientId = false →
     falsyStr env.naverClientSecret = false →
     (∀ q, ∃ items, w.searchW q = .ok items) →
     (performAnalysis env w now).2 =
       .error "OpenAI API key not configured") := by
  constructor
  · intro hmem
    rw [performAnalysis] at hmem
    rcases hrs : runSearches env w.searchW SEARCH_KEYWORDS with ⟨t1, sr⟩
    rw [hrs] at hmem
    have ht1 : ∀ c ∈ t1, ∃ q, c = NetCall.newsSearch q := by
      intro c hct
      exact runSearches_calls env w.searchW SEARCH_KEYWORDS c
        (by rw [hrs]; exact hct)
    rcases hfin : fetchNaverFinanceNews w.financeW with ⟨t1f, financeNews⟩
    rw [hfin] at hmem
    have ht1f : t1f = [.financeList] := by
      have := fetchNaverFinanceNews_trace w.financeW
      rw [hfin] at this
      exact this
    cases sr with
    | error e =>
      simp only [fetchCurrentExchangeRates] at hmem
      rcases List.mem_append.mp hmem with h01 | h1f
      · rcases List.mem_append.mp h01 with h0 | h1
        · simp at h0
        · obtain ⟨q, hq⟩ := ht1 _ h1
          cases hq
      · rw [ht1f] at h1f
        simp at h1f
    | ok apiNewsResults =>
      simp only [fetchCurrentExchangeRates, hkey, if_true] at hmem
      rcases List.mem_append.mp hmem with h012 | h2
      · rcases List.mem_append.mp h012 with h01 | h1f
        · rcases List.mem_append.mp h01 with h0 | h1
          · simp at h0
          · obtain ⟨q, hq⟩ := ht1 _ h1
            cases hq
        · rw [ht1f] at h1f
          simp at h1f
      · obtain ⟨u, hu⟩ := crawlTrace_calls _ _ h2
        cases hu
  · intro hid hsec hall
    obtain ⟨ls, hls⟩ := runSearches_ok env w.searchW hid hsec hall
      SEARCH_KEYWORDS
    rw [performAnalysis, hls]
    rcases hfin : fetchNaverFinanceNews w.financeW with ⟨t1f, financeNews⟩
    simp only [fetchCurrentExchangeRates, hkey, if_true]

/-- Environment with Naver credentials present but no OpenAI key. -/
def missingKeyEnv : Env :=
  { naverClientId := some "id", naverClientSecret := some "secret",
    openaiKey := none }

/-- A world where every search succeeds with no items and everything else
is inert. -/
def quietWorlds : Worlds :=
  { rateW := none, searchW := fun _ => .ok [], financeW := .ok [],
    crawlW := fun _ => .netError, genW := fun _ => none,
    jsonParse := fun _ => .error "SyntaxError", fmtKo := fun _ => "",
    fmtFixed2 := fun _ => "" }

/-- Witness for C9 at the concrete environment and world. -/
theorem c9_config_error_late_witness :
    (performAnalysis missingKeyEnv quietWorlds "T").2 =
      .error "OpenAI API key not configured" :=
  (c9_config_error_late missingKeyEnv quietWorlds "T" rfl).2 rfl rfl
    (fun _ => ⟨[], rfl⟩)

/-- Counterexample to C9 as stated: with the OpenAI key absent, the request
still performs the rate fetch, all five keyword searches and the finance
listing fetch — outbound network calls — before failing with the
configuration error. -/
theorem c9_counterexample :
    performAnalysis missingKeyEnv quietWorlds "T" =
      ([.rateFetch, .newsSearch "환율", .newsSearch "달러",
        .newsSearch "원화", .newsSearch "금리", .newsSearch "한국은행",
        .financeList],
       .error "OpenAI API key not configured") := by
  rfl

end GmeExchange
